import Mathlib

/-!
Shallow embedding of the FocusAI monitoring-session engine (the App
component): the alert debouncer, the capture-scheduler error branch, the
pomodoro work/break timer, the session-closing aggregation and reward
computation, and the coin/shop economy.  Numbers are modelled as
`Int`/`Rat` (JS numbers stay well within exact float range here) and JS
`Math.round` as the floor of `q + 1/2`.
-/

section

attribute [local semireducible] Rat.add Rat.mul Rat.inv Rat.sub Rat.ofScientific

/-- Posture enum from types.ts. -/
inductive PostureType
  | GOOD
  | SLOUCHING
  | TOO_CLOSE
  | TOO_FAR
  | UNKNOWN
deriving DecidableEq, Repr

/-- One perception sample (types.ts `AnalysisResult`). -/
structure AnalysisResult where
  timestamp : Int
  concentrationScore : Int
  isLookingAtScreen : Bool
  posture : PostureType
  hasElectronicDevice : Bool
  detectedDistractions : List String
  feedback : String
deriving DecidableEq, Repr

/-- JS `Math.round`: round half toward positive infinity. -/
def jsRound (q : ℚ) : ℤ := (q + 1/2).floor

/-- Fixed voice-alert cooldown (`VOICE_COOLDOWN_MS = 30000`). -/
def VOICE_COOLDOWN_MS : ℤ := 30000

/-- Mutable alert-debouncer state: the two refs
`consecutiveBadCountRef` and `lastVoiceAlertTimeRef` (both start at 0). -/
structure AlertState where
  consecutiveBadCount : ℕ
  lastAlertAt : ℤ
deriving DecidableEq, Repr

/-- The bad-state classification at the top of `handleVoiceAlert`. -/
def isBadState (r : AnalysisResult) : Bool :=
  decide (r.concentrationScore < 60) ||
  decide (r.posture ≠ PostureType.GOOD) ||
  r.hasElectronicDevice

/-- `handleVoiceAlert` acting on the alert refs; `now` is `Date.now()`.
Returns the updated state and whether a spoken alert fired. -/
def handleVoiceAlert (threshold : ℕ) (st : AlertState) (r : AnalysisResult)
    (now : ℤ) : AlertState × Bool :=
  let count := if isBadState r then st.consecutiveBadCount + 1 else 0
  let timeSinceLastAlert := now - st.lastAlertAt
  if count ≥ threshold ∧ timeSinceLastAlert > VOICE_COOLDOWN_MS then
    ({ consecutiveBadCount := 0, lastAlertAt := now }, true)
  else
    ({ consecutiveBadCount := count, lastAlertAt := st.lastAlertAt }, false)

/-- Iterate `handleVoiceAlert` over a timed stream of results, collecting
the times at which alerts fired, in stream order. -/
def runAlerts (threshold : ℕ) (st : AlertState) :
    List (AnalysisResult × ℤ) → AlertState × List ℤ
  | [] => (st, [])
  | (r, t) :: rest =>
    let step := handleVoiceAlert threshold st r t
    let tail := runAlerts threshold step.1 rest
    (tail.1, (if step.2 then [t] else []) ++ tail.2)

/-- A concrete bad sample (low score, bad posture, device detected). -/
def sampleDistracted : AnalysisResult :=
  { timestamp := 0, concentrationScore := 40, isLookingAtScreen := false,
    posture := PostureType.SLOUCHING, hasElectronicDevice := true,
    detectedDistractions := ["Phone"], feedback := "请注意坐姿" }

/-- Pomodoro timer state (`elapsedSeconds`, `isOnBreak`). -/
structure PomodoroState where
  elapsedSeconds : ℕ
  isOnBreak : Bool
deriving DecidableEq, Repr

/-- One tick of the pomodoro interval callback: increment the elapsed
counter, flip to break at `workSeconds` (keeping the counter), flip back
to work at `workSeconds + breakSeconds` (resetting the counter to 0). -/
def pomodoroTick (workSeconds breakSeconds : ℕ) (s : PomodoroState) :
    PomodoroState :=
  let next := s.elapsedSeconds + 1
  if !s.isOnBreak && decide (next ≥ workSeconds) then
    { elapsedSeconds := next, isOnBreak := true }
  else if s.isOnBreak && decide (next ≥ workSeconds + breakSeconds) then
    { elapsedSeconds := 0, isOnBreak := false }
  else
    { elapsedSeconds := next, isOnBreak := s.isOnBreak }

/-- The posture histogram built in `handleStopAndReport` by
`history.reduce((acc, item) => acc[item.posture] = (acc[item.posture] || 0) + 1)`,
read as a total function (absent keys read as 0). -/
def postureStats (history : List AnalysisResult) : PostureType → ℕ :=
  history.foldl
    (fun acc item p => if p = item.posture then acc p + 1 else acc p)
    (fun _ => 0)

/-- Derived session report (types.ts `SessionSummary`). -/
structure SessionSummary where
  averageScore : ℤ
  totalDurationSeconds : ℚ
  distractionCount : ℕ
  postureStats : PostureType → ℕ
  aiComment : String

/-- Persisted log entry (`StoredSession`). -/
structure StoredSession where
  id : String
  createdAt : ℤ
  summary : SessionSummary
  earnedCoins : ℤ

/-- The observable outcome of `handleStopAndReport` on the durable
state: the produced report, the reward, the new coin total, the new
in-memory session log, and the values written to the two storage keys
(`none` means the key was not written). -/
structure CloseOutcome where
  reportSummary : Option SessionSummary
  lastEarnedCoins : Option ℤ
  totalCoins : ℚ
  savedSessions : List StoredSession
  wroteCoinsKey : Option ℚ
  wroteSessionsKey : Option (List StoredSession)

/-- `handleStopAndReport` (session close), with the external inputs made
explicit: `aiComment` is the narration-service summary, `newId`/`now`
the generated id and `Date.now()`.  On an empty history it returns
without touching anything; otherwise it aggregates the history, computes
the reward, adds it to the coin total and prepends a log entry capped at
the 50 most recent. -/
def handleStopAndReport (history : List AnalysisResult)
    (monitorIntervalMs : ℚ) (aiComment : String) (newId : String) (now : ℤ)
    (totalCoins : ℚ) (savedSessions : List StoredSession) : CloseOutcome :=
  if history.length = 0 then
    { reportSummary := none, lastEarnedCoins := none,
      totalCoins := totalCoins, savedSessions := savedSessions,
      wroteCoinsKey := none, wroteSessionsKey := none }
  else
    let totalScore : ℤ := history.foldl (fun sum item => sum + item.concentrationScore) 0
    let avgScore : ℤ := jsRound (((totalScore : ℤ) : ℚ) / (history.length : ℚ))
    let duration := (history.length : ℚ) * (monitorIntervalMs / 1000)
    let distractionCount :=
      (history.filter
        (fun h => decide (0 < h.detectedDistractions.length) || h.hasElectronicDevice)).length
    let stats := postureStats history
    let durationMinutes : ℤ := max 1 (jsRound (duration / 60))
    let earnedCoins : ℤ := max 0 (jsRound ((avgScore : ℚ) / 10 * (durationMinutes : ℚ)))
    let summary : SessionSummary :=
      { averageScore := avgScore, totalDurationSeconds := duration,
        distractionCount := distractionCount, postureStats := stats,
        aiComment := aiComment }
    let newTotal : ℚ := totalCoins + ((earnedCoins : ℤ) : ℚ)
    let newSession : StoredSession :=
      { id := newId, createdAt := now, summary := summary,
        earnedCoins := earnedCoins }
    let newSessions := (newSession :: savedSessions).take 50
    { reportSummary := some summary, lastEarnedCoins := some earnedCoins,
      totalCoins := newTotal, savedSessions := newSessions,
      wroteCoinsKey := some newTotal, wroteSessionsKey := some newSessions }

/-- Spec wording: `averageScore` is the rounded mean of the
concentration scores. -/
def specAverageScore (history : List AnalysisResult) : ℤ :=
  jsRound ((((history.map (fun r => r.concentrationScore)).sum : ℤ) : ℚ) / (history.length : ℚ))

/-- Spec wording: `totalDurationSeconds = len(history) * (intervalMs / 1000)`. -/
def specTotalDurationSeconds (history : List AnalysisResult)
    (intervalMs : ℚ) : ℚ :=
  (history.length : ℚ) * (intervalMs / 1000)

/-- Spec wording: `durationMinutes = max(1, round(totalDurationSeconds / 60))`. -/
def specDurationMinutes (totalDurationSeconds : ℚ) : ℤ :=
  max 1 (jsRound (totalDurationSeconds / 60))

/-- Spec wording: `earnedCoins = max(0, round((averageScore / 10) * durationMinutes))`. -/
def specEarnedCoins (averageScore durationMinutes : ℤ) : ℤ :=
  max 0 (jsRound ((averageScore : ℚ) / 10 * (durationMinutes : ℚ)))

/-- Kind of a shop item. -/
inductive ShopItemKind
  | theme
  | voice
deriving DecidableEq, Repr

/-- An entry of the shop catalogs `SHOP_THEMES` / `SHOP_VOICES`. -/
structure ShopItem where
  id : String
  name : String
  description : String
  price : ℚ
  kind : ShopItemKind
deriving DecidableEq, Repr

/-- The page-theme catalog `SHOP_THEMES`. -/
def SHOP_THEMES : List ShopItem :=
  [ { id := "default", name := "默认主题", description := "清新简洁的默认配色",
      price := 0, kind := ShopItemKind.theme },
    { id := "eye-care", name := "护眼主题", description := "低蓝光护眼配色，长时间学习更舒适",
      price := 0, kind := ShopItemKind.theme },
    { id := "dark", name := "深色主题", description := "护眼的深色模式",
      price := 200, kind := ShopItemKind.theme },
    { id := "pink", name := "粉色主题", description := "温柔的粉色系",
      price := 300, kind := ShopItemKind.theme },
    { id := "ocean", name := "海洋主题", description := "清新的蓝色海洋",
      price := 250, kind := ShopItemKind.theme },
    { id := "forest", name := "森林主题", description := "自然的绿色系",
      price := 280, kind := ShopItemKind.theme } ]

/-- The voice-theme catalog `SHOP_VOICES`. -/
def SHOP_VOICES : List ShopItem :=
  [ { id := "gentle", name := "温柔学姐", description := "温和鼓励的语音风格",
      price := 0, kind := ShopItemKind.voice },
    { id := "strict", name := "严厉老师", description := "严格督促的语音风格",
      price := 0, kind := ShopItemKind.voice },
    { id := "energetic", name := "活力教练", description := "充满活力的激励语音",
      price := 150, kind := ShopItemKind.voice },
    { id := "calm", name := "平静导师", description := "平静舒缓的引导语音",
      price := 180, kind := ShopItemKind.voice },
    { id := "motivational", name := "励志演讲", description := "激励人心的演讲风格",
      price := 200, kind := ShopItemKind.voice } ]

/-- The paid dark theme (`SHOP_THEMES`, id "dark", price 200). -/
def shopDarkTheme : ShopItem :=
  { id := "dark", name := "深色主题", description := "护眼的深色模式",
    price := 200, kind := ShopItemKind.theme }

/-- Coin/shop state: the `totalCoins` and `purchasedItems` React states
plus the two storage cells (`COIN_STORAGE_KEY`, `PURCHASED_ITEMS_KEY`),
holding deserialized values; `none` means the key was not written. -/
structure ShopState where
  totalCoins : ℚ
  purchasedItems : List String
  storedCoins : Option ℚ
  storedPurchased : Option (List String)
deriving DecidableEq, Repr

/-- `handlePurchase`: returns unchanged if the item is already purchased
or if the balance is below the price (an alert dialog is shown instead);
otherwise deducts the price, records the id, and writes both storage
keys. -/
def handlePurchase (item : ShopItem) (st : ShopState) : ShopState :=
  if st.purchasedItems.contains item.id then st
  else if st.totalCoins < item.price then st
  else
    let newPurchased := item.id :: st.purchasedItems
    let newTotal := st.totalCoins - item.price
    { totalCoins := newTotal, purchasedItems := newPurchased,
      storedCoins := some newTotal, storedPurchased := some newPurchased }

/-- What JS `Number(coinRaw)` produced for the stored coin string:
either NaN or a numeric value (the parse itself is a JS builtin,
external to the repository). -/
inductive JsNumber
  | nan
  | num (v : ℚ)
deriving DecidableEq, Repr

/-- The coin branch of the load-from-storage effect: a parsed value is
applied only when it is a number and non-negative
(`!Number.isNaN(parsedCoins) && parsedCoins >= 0`); otherwise the
current total is kept. -/
def loadStoredCoins (coinRaw : Option JsNumber) (current : ℚ) : ℚ :=
  match coinRaw with
  | none => current
  | some JsNumber.nan => current
  | some (JsNumber.num v) => if 0 ≤ v then v else current

/-- `speakText`: a normal call returns early (no speech) when monitoring
is off and the consecutive-bad counter is zero; a forced (preview) call
always attempts speech.  The function never writes the alert refs, which
the returned state makes explicit; the Bool records whether speech was
attempted. -/
def speakText (text : String) (force : Bool) (isMonitoring : Bool)
    (st : AlertState) : Bool × AlertState :=
  if !force && !isMonitoring && decide (st.consecutiveBadCount = 0) then
    (false, st)
  else
    (true, st)

/-- Outcome of the `catch` branch of `captureAndAnalyze`: the diagnostic
written to `error`, the monitoring flag after the branch, and the delay
of the rescheduled tick (`none` = no reschedule, hence no further
analyze call). -/
structure ErrorOutcome where
  errorMessage : String
  isMonitoring : Bool
  nextTick : Option ℕ
deriving DecidableEq, Repr

/-- The error-classification chain of `captureAndAnalyze`: quota errors
back off 60 s, not-found errors back off 60 s, a missing-API-key
(configuration) error stops monitoring and does not reschedule, and any
other error retries at the normal interval.  The branch runs with
monitoring active (`isMonitoringRef.current = true`). -/
def handleAnalyzeFailure (monitorIntervalMs : ℕ)
    (isQuotaError isNotFoundError isConfigError : Bool) : ErrorOutcome :=
  if isQuotaError then
    { errorMessage := "API 请求频率过高，已自动暂停 60 秒...",
      isMonitoring := true, nextTick := some 60000 }
  else if isNotFoundError then
    { errorMessage := "错误：配置的模型不可用 (404)。请联系管理员。",
      isMonitoring := true, nextTick := some 60000 }
  else if isConfigError then
    { errorMessage := "未配置 API Key。请检查 Netlify 部署设置中的环境变量。",
      isMonitoring := false, nextTick := none }
  else
    { errorMessage := "网络连接不稳定，正在重试...",
      isMonitoring := true, nextTick := some monitorIntervalMs }

/-- `jsRound` agrees with the mathematical floor of `q + 1/2`. -/
theorem jsRound_eq_floor (q : ℚ) : jsRound q = ⌊q + 1/2⌋ := by
  rw [jsRound, Rat.floor_def, Rat.floor_def']

/-- A step fires exactly when the updated bad-count reaches the
threshold and more than the cooldown has passed since the last alert. -/
theorem handleVoiceAlert_fired_iff (threshold : ℕ) (st : AlertState)
    (r : AnalysisResult) (now : ℤ) :
    (handleVoiceAlert threshold st r now).2 = true ↔
      ((if isBadState r then st.consecutiveBadCount + 1 else 0) ≥ threshold
        ∧ now - st.lastAlertAt > VOICE_COOLDOWN_MS) := by
  unfold handleVoiceAlert
  by_cases hc : (if isBadState r then st.consecutiveBadCount + 1 else 0)
      ≥ threshold ∧ now - st.lastAlertAt > VOICE_COOLDOWN_MS
  · simp [hc]
  · simp [hc]

/-- `lastAlertAt` after a step: `now` when the step fired, unchanged
otherwise. -/
theorem handleVoiceAlert_lastAlertAt (threshold : ℕ) (st : AlertState)
    (r : AnalysisResult) (now : ℤ) :
    (handleVoiceAlert threshold st r now).1.lastAlertAt =
      (if (handleVoiceAlert threshold st r now).2 then now
       else st.lastAlertAt) := by
  unfold handleVoiceAlert
  by_cases hc : (if isBadState r then st.consecutiveBadCount + 1 else 0)
      ≥ threshold ∧ now - st.lastAlertAt > VOICE_COOLDOWN_MS
  · simp [hc]
  · simp [hc]

/-- A step fires only when the cooldown has elapsed since `lastAlertAt`. -/
theorem handleVoiceAlert_fired_cooldown (threshold : ℕ) (st : AlertState)
    (r : AnalysisResult) (now : ℤ)
    (h : (handleVoiceAlert threshold st r now).2 = true) :
    st.lastAlertAt + VOICE_COOLDOWN_MS < now := by
  have hc := (handleVoiceAlert_fired_iff threshold st r now).mp h
  omega

/-- A firing step records `now` into `lastAlertAt`. -/
theorem handleVoiceAlert_fired_lastAlertAt (threshold : ℕ) (st : AlertState)
    (r : AnalysisResult) (now : ℤ)
    (h : (handleVoiceAlert threshold st r now).2 = true) :
    (handleVoiceAlert threshold st r now).1.lastAlertAt = now := by
  rw [handleVoiceAlert_lastAlertAt, h, if_pos rfl]

/-- A non-firing step leaves `lastAlertAt` untouched. -/
theorem handleVoiceAlert_notFired_lastAlertAt (threshold : ℕ) (st : AlertState)
    (r : AnalysisResult) (now : ℤ)
    (h : (handleVoiceAlert threshold st r now).2 = false) :
    (handleVoiceAlert threshold st r now).1.lastAlertAt = st.lastAlertAt := by
  rw [handleVoiceAlert_lastAlertAt, h]
  simp

/-- Every fired time is strictly more than a cooldown after the
`lastAlertAt` of the state the run started from. -/
theorem runAlerts_fired_lowerBound (threshold : ℕ) :
    ∀ (trace : List (AnalysisResult × ℤ)) (st : AlertState) (u : ℤ),
      u ∈ (runAlerts threshold st trace).2 →
      st.lastAlertAt + VOICE_COOLDOWN_MS < u := by
  intro trace
  induction trace with
  | nil => intro st u hu; simp [runAlerts] at hu
  | cons p rest ih =>
    intro st u hu
    obtain ⟨r, t⟩ := p
    simp only [runAlerts, List.mem_append] at hu
    rcases hu with hu | hu
    · cases hf : (handleVoiceAlert threshold st r t).2 with
      | false => simp [hf] at hu
      | true =>
        simp [hf] at hu
        subst hu
        exact handleVoiceAlert_fired_cooldown threshold st r u hf
    · have hlb := ih (handleVoiceAlert threshold st r t).1 u hu
      cases hf : (handleVoiceAlert threshold st r t).2 with
      | false =>
        rw [handleVoiceAlert_notFired_lastAlertAt threshold st r t hf] at hlb
        exact hlb
      | true =>
        have h1 := handleVoiceAlert_fired_lastAlertAt threshold st r t hf
        have h2 := handleVoiceAlert_fired_cooldown threshold st r t hf
        have hV : VOICE_COOLDOWN_MS = 30000 := rfl
        rw [h1] at hlb
        omega

/-- All pairs of fired times in any run are separated by more than the
cooldown. -/
theorem runAlerts_fired_pairwise (threshold : ℕ) :
    ∀ (trace : List (AnalysisResult × ℤ)) (st : AlertState),
      ((runAlerts threshold st trace).2).Pairwise
        (fun a b => a + VOICE_COOLDOWN_MS < b) := by
  intro trace
  induction trace with
  | nil => intro st; simp [runAlerts]
  | cons p rest ih =>
    intro st
    obtain ⟨r, t⟩ := p
    simp only [runAlerts]
    cases hf : (handleVoiceAlert threshold st r t).2 with
    | false => simpa [hf] using ih (handleVoiceAlert threshold st r t).1
    | true =>
      simp only [hf, if_true, List.singleton_append, List.pairwise_cons]
      constructor
      · intro u hu
        have hlb := runAlerts_fired_lowerBound threshold rest
          (handleVoiceAlert threshold st r t).1 u hu
        rw [handleVoiceAlert_fired_lastAlertAt threshold st r t hf] at hlb
        exact hlb
      · exact ih (handleVoiceAlert threshold st r t).1

/-- During the work phase the counter just increments. -/
theorem pomodoroTick_iterate_work (w b k : ℕ) (hk : k < w) :
    (pomodoroTick w b)^[k] ⟨0, false⟩ = ⟨k, false⟩ := by
  induction k with
  | zero => rfl
  | succ n ih =>
    rw [Function.iterate_succ_apply', ih (Nat.lt_of_succ_lt hk)]
    simp only [pomodoroTick]
    have h1 : ¬ (n + 1 ≥ w) := by omega
    simp [h1]

/-- After exactly `w` ticks the machine enters the break phase with the
counter still at `w`. -/
theorem pomodoroTick_work_to_break (w b : ℕ) (hw : 1 ≤ w) :
    (pomodoroTick w b)^[w] ⟨0, false⟩ = ⟨w, true⟩ := by
  obtain ⟨w', rfl⟩ : ∃ w', w = w' + 1 := ⟨w - 1, by omega⟩
  rw [Function.iterate_succ_apply',
    pomodoroTick_iterate_work _ b w' (Nat.lt_succ_self w')]
  simp [pomodoroTick]

/-- During the break phase the counter keeps incrementing from `w`. -/
theorem pomodoroTick_iterate_break (w b k : ℕ) (hk : k < b) :
    (pomodoroTick w b)^[k] ⟨w, true⟩ = ⟨w + k, true⟩ := by
  induction k with
  | zero => rfl
  | succ n ih =>
    rw [Function.iterate_succ_apply', ih (Nat.lt_of_succ_lt hk)]
    simp only [pomodoroTick]
    have h1 : ¬ (w + n + 1 ≥ w + b) := by omega
    simp [h1]
    omega

/-- After `b` further ticks the machine resumes work with the counter
reset to 0. -/
theorem pomodoroTick_break_to_work (w b : ℕ) (hb : 1 ≤ b) :
    (pomodoroTick w b)^[b] ⟨w, true⟩ = ⟨0, false⟩ := by
  obtain ⟨b', rfl⟩ : ∃ b', b = b' + 1 := ⟨b - 1, by omega⟩
  rw [Function.iterate_succ_apply',
    pomodoroTick_iterate_break _ _ b' (Nat.lt_succ_self b')]
  simp [pomodoroTick]
  omega

/-- The running total-score fold in the source equals the sum of the
mapped scores. -/
theorem foldl_concentrationScore_eq_sum (history : List AnalysisResult) :
    history.foldl (fun sum item => sum + item.concentrationScore) 0 =
      (history.map (fun r => r.concentrationScore)).sum := by
  rw [List.sum_eq_foldl, List.foldl_map]

/-- Reading the histogram fold at one posture value counts the matching
samples on top of whatever the accumulator already held. -/
theorem postureStats_foldl_apply :
    ∀ (history : List AnalysisResult) (acc : PostureType → ℕ) (p : PostureType),
      history.foldl
          (fun acc item p => if p = item.posture then acc p + 1 else acc p)
          acc p
        = acc p + history.countP (fun r => decide (r.posture = p)) := by
  intro history
  induction history with
  | nil => intro acc p; simp
  | cons x t ih =>
    intro acc p
    rw [List.foldl_cons, ih, List.countP_cons]
    by_cases hp : p = x.posture
    · simp only [hp, if_pos rfl]
      simp
      omega
    · have hp' : ¬ (x.posture = p) := fun h => hp h.symm
      simp [hp, hp']

/-- `postureStats` at a posture value is the number of samples with that
posture. -/
theorem postureStats_apply (history : List AnalysisResult) (p : PostureType) :
    postureStats history p =
      history.countP (fun r => decide (r.posture = p)) := by
  rw [postureStats, postureStats_foldl_apply]
  simp

/-- Claim C1: for every session closed with a non-empty history, the
earned coins equal `max(0, round((averageScore / 10) * durationMinutes))`
with `durationMinutes = max(1, round(totalDurationSeconds / 60))`,
`averageScore` the rounded mean of the concentration scores and
`totalDurationSeconds = len(history) * (intervalMs / 1000)`; in
particular `averageScore = 80` with `durationMinutes = 25` yields
exactly 200 coins. -/
theorem claim_C1 :
    (∀ (history : List AnalysisResult) (intervalMs : ℚ)
        (aiComment newId : String) (now : ℤ) (coins : ℚ)
        (sessions : List StoredSession),
      history ≠ [] →
      (handleStopAndReport history intervalMs aiComment newId now coins
          sessions).lastEarnedCoins
        = some (specEarnedCoins (specAverageScore history)
            (specDurationMinutes (specTotalDurationSeconds history intervalMs)))) ∧
    specEarnedCoins 80 25 = 200 := by
  constructor
  · intro history intervalMs aiComment newId now coins sessions hne
    have hlen : ¬ history.length = 0 := by
      simpa [List.length_eq_zero] using hne
    simp only [handleStopAndReport, if_neg hlen]
    simp only [specEarnedCoins, specAverageScore, specDurationMinutes,
      specTotalDurationSeconds, foldl_concentrationScore_eq_sum]
  · decide

/-- Witness for C1 at a concrete one-sample history. -/
theorem claim_C1_witness :
    (handleStopAndReport [sampleDistracted] 5000 "comment" "id1" 0 0
        []).lastEarnedCoins
      = some (specEarnedCoins (specAverageScore [sampleDistracted])
          (specDurationMinutes
            (specTotalDurationSeconds [sampleDistracted] 5000))) :=
  claim_C1.1 [sampleDistracted] 5000 "comment" "id1" 0 0 [] (by decide)

/-- Claim C2: from a fresh alert state with threshold 2, three
consecutive bad results produce exactly one alert, fired at the second
result, and the consecutive-bad counter is 0 immediately after that
firing. -/
theorem claim_C2 (r1 r2 r3 : AnalysisResult) (t1 t2 t3 : ℤ)
    (h1 : isBadState r1 = true) (h2 : isBadState r2 = true)
    (h3 : isBadState r3 = true) (ht : 30000 < t2) :
    (runAlerts 2 ⟨0, 0⟩ [(r1, t1), (r2, t2), (r3, t3)]).2 = [t2] ∧
    (runAlerts 2 ⟨0, 0⟩ [(r1, t1), (r2, t2)]).1.consecutiveBadCount = 0 := by
  have s1 : handleVoiceAlert 2 ⟨0, 0⟩ r1 t1 = (⟨1, 0⟩, false) := by
    simp [handleVoiceAlert, h1, VOICE_COOLDOWN_MS]
  have s2 : handleVoiceAlert 2 ⟨1, 0⟩ r2 t2 = (⟨0, t2⟩, true) := by
    simp [handleVoiceAlert, h2, VOICE_COOLDOWN_MS]
    omega
  have s3 : handleVoiceAlert 2 ⟨0, t2⟩ r3 t3 = (⟨1, t2⟩, false) := by
    simp [handleVoiceAlert, h3, VOICE_COOLDOWN_MS]
  refine ⟨?_, ?_⟩ <;> simp [runAlerts, s1, s2, s3]

/-- Witness for C2 at a concrete bad sample and realistic times. -/
theorem claim_C2_witness :
    (runAlerts 2 ⟨0, 0⟩
        [(sampleDistracted, 100000), (sampleDistracted, 100005),
          (sampleDistracted, 100010)]).2 = [100005] ∧
    (runAlerts 2 ⟨0, 0⟩
        [(sampleDistracted, 100000),
          (sampleDistracted, 100005)]).1.consecutiveBadCount = 0 :=
  claim_C2 sampleDistracted sampleDistracted sampleDistracted
    100000 100005 100010 (by decide) (by decide) (by decide) (by decide)

/-- Claim C3: an API-key (configuration) error sets a diagnostic, sets
the monitoring flag to false and schedules no further tick; every other
error kind keeps the session active and schedules a retry. -/
theorem claim_C3 :
    ∀ (monitorIntervalMs : ℕ) (isQuotaError isNotFoundError isConfigError : Bool),
      (isQuotaError = false → isNotFoundError = false → isConfigError = true →
        (handleAnalyzeFailure monitorIntervalMs isQuotaError isNotFoundError
            isConfigError).isMonitoring = false ∧
        (handleAnalyzeFailure monitorIntervalMs isQuotaError isNotFoundError
            isConfigError).nextTick = none ∧
        (handleAnalyzeFailure monitorIntervalMs isQuotaError isNotFoundError
            isConfigError).errorMessage ≠ "") ∧
      ((isQuotaError = true ∨ isNotFoundError = true ∨ isConfigError = false) →
        (handleAnalyzeFailure monitorIntervalMs isQuotaError isNotFoundError
            isConfigError).isMonitoring = true ∧
        (handleAnalyzeFailure monitorIntervalMs isQuotaError isNotFoundError
            isConfigError).nextTick ≠ none) := by
  intro i q n c
  cases q <;> cases n <;> cases c <;> simp [handleAnalyzeFailure]

/-- Witness for C3: the config-error case and one transient case at the
default 5000 ms interval. -/
theorem claim_C3_witness :
    ((handleAnalyzeFailure 5000 false false true).isMonitoring = false ∧
     (handleAnalyzeFailure 5000 false false true).nextTick = none ∧
     (handleAnalyzeFailure 5000 false false true).errorMessage ≠ "") ∧
    ((handleAnalyzeFailure 5000 false false false).isMonitoring = true ∧
     (handleAnalyzeFailure 5000 false false false).nextTick ≠ none) :=
  ⟨(claim_C3 5000 false false true).1 rfl rfl rfl,
   (claim_C3 5000 false false false).2 (Or.inr (Or.inr rfl))⟩

/-- Claim C4: with `workSeconds = 1500` and `breakSeconds = 300`,
starting from `⟨0, false⟩`: after 1499 ticks still working, after
exactly 1500 ticks the break starts with `elapsedSeconds` kept at 1500,
and 300 further ticks end the break and reset `elapsedSeconds` to 0. -/
theorem claim_C4 :
    (pomodoroTick 1500 300)^[1499] ⟨0, false⟩ = ⟨1499, false⟩ ∧
    (pomodoroTick 1500 300)^[1500] ⟨0, false⟩ = ⟨1500, true⟩ ∧
    (pomodoroTick 1500 300)^[300] ⟨1500, true⟩ = ⟨0, false⟩ :=
  ⟨pomodoroTick_iterate_work 1500 300 1499 (by omega),
   pomodoroTick_work_to_break 1500 300 (by omega),
   pomodoroTick_break_to_work 1500 300 (by omega)⟩

/-- Claim C5: in any run of the alert handler, the times of spoken
alerts are pairwise separated by more than the 30000 ms cooldown, so two
qualifying steps within the cooldown of each other produce at most one
spoken alert. -/
theorem claim_C5 (threshold : ℕ) (st : AlertState)
    (trace : List (AnalysisResult × ℤ)) :
    ((runAlerts threshold st trace).2).Pairwise
      (fun a b => a + VOICE_COOLDOWN_MS < b) :=
  runAlerts_fired_pairwise threshold trace st

/-- Claim C6: `totalCoins` never goes negative — an over-priced purchase
is rejected unchanged (not clamped), purchases preserve non-negativity,
session rewards never decrease the total, and a persisted coin value
that is negative or non-numeric is discarded on load. -/
theorem claim_C6 :
    (∀ (item : ShopItem) (st : ShopState),
        st.totalCoins < item.price → handlePurchase item st = st) ∧
    (∀ (item : ShopItem) (st : ShopState),
        0 ≤ st.totalCoins → 0 ≤ (handlePurchase item st).totalCoins) ∧
    (∀ (history : List AnalysisResult) (intervalMs : ℚ)
        (aiComment newId : String) (now : ℤ) (coins : ℚ)
        (sessions : List StoredSession),
        coins ≤ (handleStopAndReport history intervalMs aiComment newId now
          coins sessions).totalCoins) ∧
    (∀ (v current : ℚ), v < 0 →
        loadStoredCoins (some (JsNumber.num v)) current = current) ∧
    (∀ current : ℚ, loadStoredCoins (some JsNumber.nan) current = current) := by
  refine ⟨?_, ?_, ?_, ?_, ?_⟩
  · intro item st hlt
    by_cases hc : item.id ∈ st.purchasedItems
    · simp [handlePurchase, hc]
    · simp [handlePurchase, hc, hlt]
  · intro item st h0
    by_cases hc : item.id ∈ st.purchasedItems
    · simpa [handlePurchase, hc] using h0
    · by_cases hlt : st.totalCoins < item.price
      · simpa [handlePurchase, hc, hlt] using h0
      · have hle : item.price ≤ st.totalCoins := not_lt.mp hlt
        simp [handlePurchase, hc, hlt]
        linarith
  · intro history intervalMs aiComment newId now coins sessions
    unfold handleStopAndReport
    by_cases hlen : history.length = 0
    · simp [hlen]
    · simp only [hlen, if_false]
      have key : ∀ z : ℤ, coins ≤ coins + ((max 0 z : ℤ) : ℚ) := by
        intro z
        have hz : (0:ℚ) ≤ ((max 0 z : ℤ) : ℚ) := by
          exact_mod_cast le_max_left 0 z
        linarith
      exact key _
  · intro v current hv
    simp only [loadStoredCoins]
    rw [if_neg (not_le.mpr hv)]
  · intro current
    rfl

/-- Witness for C6: an over-priced purchase is a no-op, an affordable
purchase keeps the balance non-negative, and a negative stored value is
discarded. -/
theorem claim_C6_witness :
    (handlePurchase shopDarkTheme
        { totalCoins := 100, purchasedItems := [], storedCoins := none,
          storedPurchased := none } =
      { totalCoins := 100, purchasedItems := [], storedCoins := none,
        storedPurchased := none }) ∧
    (0 ≤ (handlePurchase shopDarkTheme
        { totalCoins := 500, purchasedItems := [], storedCoins := none,
          storedPurchased := none }).totalCoins) ∧
    (loadStoredCoins (some (JsNumber.num (-5))) 300 = 300) :=
  ⟨claim_C6.1 shopDarkTheme _ (by decide),
   claim_C6.2.1 shopDarkTheme _ (by decide),
   claim_C6.2.2.2.1 (-5) 300 (by decide)⟩

/-- Claim C7: closing a session with an empty history is a no-op for the
durable state: no report, no reward, coins and the persisted log
untouched, and neither storage key written. -/
theorem claim_C7 :
    ∀ (intervalMs : ℚ) (aiComment newId : String) (now : ℤ) (coins : ℚ)
      (sessions : List StoredSession),
      handleStopAndReport [] intervalMs aiComment newId now coins sessions =
        { reportSummary := none, lastEarnedCoins := none, totalCoins := coins,
          savedSessions := sessions, wroteCoinsKey := none,
          wroteSessionsKey := none } :=
  fun _ _ _ _ _ _ => rfl

/-- Claim C8: `postureStats` maps each posture value to its number of
occurrences in the history, so its values over the five-value enum sum
to the history length. -/
theorem claim_C8 (history : List AnalysisResult) :
    (∀ p, postureStats history p =
        history.countP (fun r => decide (r.posture = p))) ∧
    (postureStats history PostureType.GOOD
      + postureStats history PostureType.SLOUCHING
      + postureStats history PostureType.TOO_CLOSE
      + postureStats history PostureType.TOO_FAR
      + postureStats history PostureType.UNKNOWN = history.length) := by
  refine ⟨postureStats_apply history, ?_⟩
  simp only [postureStats_apply]
  induction history with
  | nil => simp
  | cons x t ih =>
    simp only [List.countP_cons, List.length_cons]
    cases hx : x.posture <;> simp [hx] <;> omega

/-- Claim C9: a forced preview call of `speakText` always attempts
speech, regardless of the monitoring flag and the alert state, and
returns the alert state unchanged. -/
theorem claim_C9 :
    ∀ (text : String) (isMonitoring : Bool) (st : AlertState),
      speakText text true isMonitoring st = (true, st) := by
  intro text isMonitoring st
  simp [speakText]

/-- Claim C10: purchasing an already-purchased item is a no-op on the
coin total, the purchased set, and the storage cells, so an item is
charged for at most once. -/
theorem claim_C10 (item : ShopItem) (st : ShopState)
    (h : st.purchasedItems.contains item.id = true) :
    handlePurchase item st = st := by
  have hm : item.id ∈ st.purchasedItems := by simpa using h
  simp [handlePurchase, hm]

/-- Witness for C10: re-buying the already-owned dark theme changes
nothing. -/
theorem claim_C10_witness :
    handlePurchase shopDarkTheme
        { totalCoins := 500, purchasedItems := ["dark"], storedCoins := none,
          storedPurchased := none } =
      { totalCoins := 500, purchasedItems := ["dark"], storedCoins := none,
        storedPurchased := none } :=
  claim_C10 shopDarkTheme _ (by decide)

end
